import Mathlib

/-!
# Verification of quickwit admission-control primitives

Shallow embedding of two source files:

* `quickwit-common/src/tower/load_shed.rs` — the `LoadShed` tower middleware
  that caps the number of in-flight requests with a shared `Arc<Semaphore>`;
* `quickwit-ingest/src/semaphore_with_waiter.rs` — `SemaphoreWithMaxWaiters`,
  a counting semaphore that additionally caps the number of suspended waiters.

Stateful Rust code becomes explicit state passing.  The futures returned by
`SemaphoreWithMaxWaiters::acquire` are modelled as a small state machine with
an explicit suspension point (the single `.await` in the source), including
the transition taken when the caller drops the future while it is suspended.
-/

/-- Result of polling a future / a tower `poll_ready`, mirroring
`std::task::Poll`. -/
inductive Poll (α : Type) where
  | ready (a : α)
  | pending
  deriving DecidableEq

/- ### LoadShed (quickwit-common/src/tower/load_shed.rs) -/

/-- State of the shared `Arc<Semaphore>` held in `LoadShed.permits`.  The
`LoadShed` code only ever calls `try_acquire_owned` on it and drops the
resulting `OwnedSemaphorePermit`s; nothing closes it, so the pool is just its
count of available permits. -/
structure Pool where
  available : Nat
  deriving DecidableEq

/-- Models `Semaphore::try_acquire_owned`: `some` of the decremented pool on
success, `none` when no permit is available (the `Err(_)` branch of the `if
let Ok(permit)` in `poll_ready`). -/
def tryAcquireOwned (p : Pool) : Option Pool :=
  if 0 < p.available then some ⟨p.available - 1⟩ else none

/-- Dropping an `OwnedSemaphorePermit` returns its unit of capacity to the
pool. -/
def releasePermit (p : Pool) : Pool :=
  ⟨p.available + 1⟩

/-- The `LoadShed<S>` handle: the wrapped inner service state and the
locally held permit slot `permit_opt` (`true` iff `Some(permit)`).  The shared
`permits` pool is passed alongside explicitly. -/
structure LoadShed (σ : Type) where
  inner : σ
  permitOpt : Bool
  deriving DecidableEq

/-- Models `impl Clone for LoadShed`: the inner service is cloned, the `Arc`
pool is shared (in this state-passing embedding the pool is a separate value
that the clone keeps using), and `permit_opt` is reset to `None`. -/
def cloneLoadShed (cloneInner : σ → σ) (s : LoadShed σ) : LoadShed σ :=
  { inner := cloneInner s.inner, permitOpt := false }

/-- Models `LoadShed::poll_ready`.  `mkLoadShedError` stands for
`S::Error::make_load_shed_error()` of the `MakeLoadShedError` trait, and
`innerPollReady` for the wrapped service's `poll_ready` (a state transformer,
invoked only where the source invokes it).  If a permit is already held, or
one is acquired from the pool, the call delegates to the inner service;
otherwise it returns `Poll::Ready(Err(make_load_shed_error()))`. -/
def pollReady (mkLoadShedError : ε) (innerPollReady : σ → Poll (Except ε Unit) × σ)
    (s : LoadShed σ) (p : Pool) : Poll (Except ε Unit) × LoadShed σ × Pool :=
  if s.permitOpt then
    let r := innerPollReady s.inner
    (r.1, { inner := r.2, permitOpt := true }, p)
  else
    match tryAcquireOwned p with
    | some p₁ =>
        let r := innerPollReady s.inner
        (r.1, { inner := r.2, permitOpt := true }, p₁)
    | none => (Poll.ready (Except.error mkLoadShedError), s, p)

/-- The `LoadShedFuture<F>` returned by `call`: the inner service's future
and the permit moved out of the handle (its presence is what matters; the
capacity it represents is accounted in the pool). -/
structure LoadShedFuture (φ : Type) where
  inner : φ
  permit : Unit
  deriving DecidableEq

/-- Models `LoadShed::call`.  `none` models the panic of
`self.permit_opt.take().expect("poll_ready should be called before call")`;
on the normal path the held permit is taken out of the handle and attached to
the returned future. -/
def call (innerCall : σ → ρ → φ × σ) (s : LoadShed σ) (request : ρ) :
    Option (LoadShedFuture φ × LoadShed σ) :=
  if s.permitOpt then
    let r := innerCall s.inner request
    some ({ inner := r.1, permit := () }, { inner := r.2, permitOpt := false })
  else
    none

/-- Models `Future::poll` for `LoadShedFuture`: it projects to the inner
future's poll and returns its output unchanged. -/
def pollLoadShedFuture (innerPoll : φ → Poll (Except ε τ) × φ)
    (f : LoadShedFuture φ) : Poll (Except ε τ) × LoadShedFuture φ :=
  let r := innerPoll f.inner
  (r.1, { inner := r.2, permit := f.permit })

/-- Dropping a `LoadShedFuture` (after completion or on abandonment) drops
its `OwnedSemaphorePermit`, returning the capacity to the pool. -/
def dropLoadShedFuture (p : Pool) : Pool :=
  releasePermit p

/-- Models `LoadShedLayer`: just the configured capacity. -/
structure LoadShedLayer where
  maxInFlightRequests : Nat
  deriving DecidableEq

/-- Models `LoadShedLayer::new`. -/
def LoadShedLayer.new (maxInFlightRequests : Nat) : LoadShedLayer :=
  ⟨maxInFlightRequests⟩

/-- Models `LoadShedLayer::layer`: wraps the service with a fresh pool of
`max_in_flight_requests` permits and no held permit. -/
def LoadShedLayer.layer (l : LoadShedLayer) (service : σ) : LoadShed σ × Pool :=
  ({ inner := service, permitOpt := false }, ⟨l.maxInFlightRequests⟩)

/- ### System-level view of one shared pool with several handles

To state pool-wide invariants (the in-flight ceiling, joint accounting across
clones) we track the shared pool together with the `permit_opt` flag of every
handle sharing it and the number of live `LoadShedFuture`s holding permits. -/

/-- Global state: the configured capacity, the shared pool, the
`permit_opt` flag of each `LoadShed` clone sharing the pool, and the number
of in-flight `LoadShedFuture`s (each holding one permit). -/
structure Sys where
  capacity : Nat
  pool : Pool
  handles : List Bool
  inFlight : Nat
  deriving DecidableEq

/-- Number of permits currently sitting unconsumed in handles. -/
def countHeld : List Bool → Nat
  | [] => 0
  | true :: t => countHeld t + 1
  | false :: t => countHeld t

/-- Permits outstanding: held by handles awaiting `call`, or attached to
in-flight futures. -/
def outstanding (s : Sys) : Nat :=
  countHeld s.handles + s.inFlight

/-- Accounting invariant of the shared semaphore: available capacity plus
outstanding permits equals the configured capacity. -/
def Wf (s : Sys) : Prop :=
  s.pool.available + outstanding s = s.capacity

/-- Effect of handle `i` running `poll_ready` on the shared accounting: a
handle with a held permit keeps it; a permitless handle try-acquires from the
pool, keeping the permit on success, with no effect on failure. -/
def pollReadyStep (i : Nat) (s : Sys) : Sys :=
  match s.handles[i]? with
  | some true => s
  | some false =>
      match tryAcquireOwned s.pool with
      | some p₁ => { s with pool := p₁, handles := s.handles.set i true }
      | none => s
  | none => s

/-- Effect of handle `i` running `call` (on the non-panicking path): the held
permit moves from the handle into the new in-flight future. -/
def callStep (i : Nat) (s : Sys) : Sys :=
  match s.handles[i]? with
  | some true => { s with handles := s.handles.set i false, inFlight := s.inFlight + 1 }
  | _ => s

/-- Effect of an in-flight future finishing or being dropped: its permit
returns to the pool. -/
def completeStep (s : Sys) : Sys :=
  if 0 < s.inFlight then
    { s with pool := releasePermit s.pool, inFlight := s.inFlight - 1 }
  else s

/-- Effect of cloning one of the handles: the clone shares the pool and
starts with `permit_opt = None`. -/
def cloneStep (s : Sys) : Sys :=
  { s with handles := s.handles ++ [false] }

/- ### SemaphoreWithMaxWaiters (quickwit-ingest/src/semaphore_with_waiter.rs) -/

/-- State of a `SemaphoreWithMaxWaiters`: the inner `tokio::sync::Semaphore`
(its available-permit count and its closed flag) together with the
`num_waiters: AtomicUsize` counter and the fixed `max_num_waiters` bound. -/
structure SemaphoreWithMaxWaiters where
  permitsAvailable : Nat
  closed : Bool
  numWaiters : Nat
  maxNumWaiters : Nat
  deriving DecidableEq

/-- Models `SemaphoreWithMaxWaiters::new(num_permits, max_num_waiters)`. -/
def SemaphoreWithMaxWaiters.new (numPermits maxNumWaiters : Nat) :
    SemaphoreWithMaxWaiters :=
  { permitsAvailable := numPermits
    closed := false
    numWaiters := 0
    maxNumWaiters := maxNumWaiters }

/-- Outcome of an `acquire()` call once it has finished. -/
inductive AcquireResult where
  | ok
  | gateFull
  | panicked
  deriving DecidableEq

/-- State of the future returned by `acquire()`: either finished with an
outcome, or suspended at the single `.await` on `self.permits.acquire()`
(after having incremented `num_waiters`). -/
inductive AcquireState where
  | done (r : AcquireResult)
  | waiting
  deriving DecidableEq

/-- Models the synchronous prefix of `SemaphoreWithMaxWaiters::acquire`, up
to its only suspension point: `try_acquire` (whose `Closed` arm panics, and
whose `Ok` arm returns the permit at once), then the
`num_waiters >= max_num_waiters` check returning `Err(())`, then the
`fetch_add(1)` on `num_waiters` just before awaiting `permits.acquire()`.
An obtained permit is accounted by decrementing `permitsAvailable`. -/
def acquireStart (g : SemaphoreWithMaxWaiters) :
    AcquireState × SemaphoreWithMaxWaiters :=
  if g.closed then
    (AcquireState.done AcquireResult.panicked, g)
  else if 0 < g.permitsAvailable then
    (AcquireState.done AcquireResult.ok, { g with permitsAvailable := g.permitsAvailable - 1 })
  else if g.maxNumWaiters ≤ g.numWaiters then
    (AcquireState.done AcquireResult.gateFull, g)
  else
    (AcquireState.waiting, { g with numWaiters := g.numWaiters + 1 })

/-- Models polling the suspended `acquire()` future again: the `.await` on
`permits.acquire()` completes when a permit is available (the subsequent
`.expect` panics only if the semaphore was closed), after which
`num_waiters.fetch_sub(1)` runs and the permit is returned. -/
def acquireResume (g : SemaphoreWithMaxWaiters) :
    AcquireState × SemaphoreWithMaxWaiters :=
  if g.closed then
    (AcquireState.done AcquireResult.panicked, g)
  else if 0 < g.permitsAvailable then
    (AcquireState.done AcquireResult.ok,
      { g with
          permitsAvailable := g.permitsAvailable - 1
          numWaiters := g.numWaiters - 1 })
  else
    (AcquireState.waiting, g)

/-- Models dropping the `acquire()` future while it is suspended at the
`.await`: Rust runs none of the code after the await point, so the
`num_waiters.fetch_sub(1)` never executes; the only effect of the drop is
that the inner `permits.acquire()` future leaves the tokio semaphore's wait
queue, which touches none of the fields modelled here. -/
def acquireCancel (g : SemaphoreWithMaxWaiters) : SemaphoreWithMaxWaiters :=
  g

/-- Models dropping a `SemaphorePermit` obtained from the gate: capacity
returns to the pool. -/
def gateRelease (g : SemaphoreWithMaxWaiters) : SemaphoreWithMaxWaiters :=
  { g with permitsAvailable := g.permitsAvailable + 1 }

/- ### Bookkeeping lemmas for the shared-pool accounting -/

theorem countHeld_append (l₁ l₂ : List Bool) :
    countHeld (l₁ ++ l₂) = countHeld l₁ + countHeld l₂ := by
  induction l₁ with
  | nil => simp [countHeld]
  | cons b t ih =>
    cases b <;> simp [countHeld, ih]
    omega

theorem countHeld_set_true (l : List Bool) :
    ∀ i : Nat, l[i]? = some false → countHeld (l.set i true) = countHeld l + 1 := by
  induction l with
  | nil => intro i h; simp at h
  | cons b t ih =>
    intro i h
    cases i with
    | zero =>
      simp at h
      subst h
      simp [countHeld]
    | succ j =>
      simp only [List.getElem?_cons_succ] at h
      have hih := ih j h
      cases b <;> simp [List.set_cons_succ, countHeld, hih]

theorem countHeld_set_false (l : List Bool) :
    ∀ i : Nat, l[i]? = some true → countHeld (l.set i false) + 1 = countHeld l := by
  induction l with
  | nil => intro i h; simp at h
  | cons b t ih =>
    intro i h
    cases i with
    | zero =>
      simp at h
      subst h
      simp [countHeld]
    | succ j =>
      simp only [List.getElem?_cons_succ] at h
      have hih := ih j h
      cases b <;> simp [List.set_cons_succ, countHeld] <;> omega

theorem wf_pollReadyStep (s : Sys) (i : Nat) (h : Wf s) : Wf (pollReadyStep i s) := by
  unfold Wf outstanding at h ⊢
  unfold pollReadyStep
  cases hg : s.handles[i]? with
  | none => exact h
  | some b =>
    cases b with
    | true => exact h
    | false =>
      by_cases hp : 0 < s.pool.available
      · simp only [tryAcquireOwned, if_pos hp]
        have hc := countHeld_set_true s.handles i hg
        simp only [hc]
        omega
      · simp only [tryAcquireOwned, if_neg hp]
        exact h

theorem wf_callStep (s : Sys) (i : Nat) (h : Wf s) : Wf (callStep i s) := by
  unfold Wf outstanding at h ⊢
  unfold callStep
  cases hg : s.handles[i]? with
  | none => exact h
  | some b =>
    cases b with
    | false => exact h
    | true =>
      have hc := countHeld_set_false s.handles i hg
      simp only
      omega

theorem wf_completeStep (s : Sys) (h : Wf s) : Wf (completeStep s) := by
  unfold Wf outstanding at h ⊢
  unfold completeStep releasePermit
  by_cases hf : 0 < s.inFlight
  · simp only [if_pos hf]
    omega
  · simp only [if_neg hf]
    exact h

theorem wf_cloneStep (s : Sys) (h : Wf s) : Wf (cloneStep s) := by
  unfold Wf outstanding at h ⊢
  unfold cloneStep
  simp only [countHeld_append, countHeld]
  omega

/- ### Claims about SemaphoreWithMaxWaiters -/

/-- C3: in `SemaphoreWithMaxWaiters::acquire`, when no permit is immediately
available and the current waiter count is at or above `max_num_waiters`, the
call returns the `GateFull` error (`Err(())`) on its first poll — it does not
suspend, does not increment the waiter count, and leaves the whole state
unchanged (the caller is not enqueued). -/
theorem acquire_gateFull_immediate (g : SemaphoreWithMaxWaiters)
    (hclosed : g.closed = false) (hperm : g.permitsAvailable = 0)
    (hw : g.maxNumWaiters ≤ g.numWaiters) :
    acquireStart g = (AcquireState.done AcquireResult.gateFull, g) := by
  unfold acquireStart
  rw [hclosed]
  simp [hperm, hw]

theorem acquire_gateFull_immediate_witness :
    acquireStart ⟨0, false, 2, 2⟩
      = (AcquireState.done AcquireResult.gateFull, ⟨0, false, 2, 2⟩) :=
  acquire_gateFull_immediate ⟨0, false, 2, 2⟩ rfl rfl (by decide)

/-- C5: with at least one permit immediately free (and the semaphore not
closed, which is invariant), `acquire` returns a permit via the non-blocking
fast path on its first poll: it never suspends, the waiter count is
unchanged, and the outcome and effect are identical for every value of the
waiter count and of `max_num_waiters`, including `max_num_waiters = 0`. -/
theorem acquire_fast_path (g : SemaphoreWithMaxWaiters)
    (hclosed : g.closed = false) (hpos : 0 < g.permitsAvailable) :
    acquireStart g =
      (AcquireState.done AcquireResult.ok,
        { g with permitsAvailable := g.permitsAvailable - 1 })
    ∧ ∀ w m : Nat,
        acquireStart ⟨g.permitsAvailable, false, w, m⟩ =
          (AcquireState.done AcquireResult.ok,
            ⟨g.permitsAvailable - 1, false, w, m⟩) := by
  constructor
  · unfold acquireStart
    rw [hclosed]
    simp [hpos]
  · intro w m
    unfold acquireStart
    simp [hpos]

theorem acquire_fast_path_witness :
    acquireStart ⟨3, false, 9, 0⟩
      = (AcquireState.done AcquireResult.ok, ⟨2, false, 9, 0⟩) :=
  ((acquire_fast_path ⟨3, false, 9, 0⟩ rfl (by decide)).2 9 0)

/-- C9: `acquire` never surfaces a closed pool as a recoverable error: a
closed semaphore makes both the `try_acquire` arm and the awaited `acquire`
arm panic, and when the pool is not closed (it never is: the constructor
starts it open and no modelled operation closes it) neither arm can panic and
the only `Err` outcome is the `GateFull` rejection, which occurs only with no
permit free and the waiter cap reached. -/
theorem acquire_closed_is_panic (g : SemaphoreWithMaxWaiters) :
    (∀ n m : Nat, (SemaphoreWithMaxWaiters.new n m).closed = false)
    ∧ (acquireStart g).2.closed = g.closed
    ∧ (acquireResume g).2.closed = g.closed
    ∧ (gateRelease g).closed = g.closed
    ∧ (g.closed = true →
        acquireStart g = (AcquireState.done AcquireResult.panicked, g)
        ∧ acquireResume g = (AcquireState.done AcquireResult.panicked, g))
    ∧ (g.closed = false →
        (acquireStart g).1 ≠ AcquireState.done AcquireResult.panicked
        ∧ (acquireResume g).1 ≠ AcquireState.done AcquireResult.panicked
        ∧ ((acquireStart g).1 = AcquireState.done AcquireResult.gateFull →
            g.permitsAvailable = 0 ∧ g.maxNumWaiters ≤ g.numWaiters)) := by
  refine ⟨fun n m => rfl, ?_, ?_, rfl, ?_, ?_⟩
  · unfold acquireStart
    split <;> try rfl
    split <;> try rfl
    split <;> rfl
  · unfold acquireResume
    split <;> try rfl
    split <;> rfl
  · intro hc
    unfold acquireStart acquireResume
    rw [hc]
    exact ⟨rfl, rfl⟩
  · intro hc
    unfold acquireStart acquireResume
    rw [hc]
    by_cases hp : 0 < g.permitsAvailable
    · simp [hp]
    · by_cases hw : g.maxNumWaiters ≤ g.numWaiters
      · simp [hp, hw]
        omega
      · simp [hp, hw]

theorem acquire_closed_is_panic_witness :
    acquireStart ⟨5, true, 0, 0⟩
      = (AcquireState.done AcquireResult.panicked, ⟨5, true, 0, 0⟩)
    ∧ (acquireStart ⟨0, false, 0, 1⟩).1 ≠ AcquireState.done AcquireResult.panicked :=
  ⟨((acquire_closed_is_panic ⟨5, true, 0, 0⟩).2.2.2.2.1 rfl).1,
    ((acquire_closed_is_panic ⟨0, false, 0, 1⟩).2.2.2.2.2 rfl).1⟩

/-- C2 (evaluation at the failing input): on a gate built with
`new(1, 1)`, a first `acquire` takes the only permit; a second `acquire`
suspends after incrementing the waiter count to 1; dropping that suspended
future (`acquireCancel`, which models Rust running no code past the await
point) leaves the waiter count at 1 instead of decrementing it, so a
subsequent `acquire` fails with `GateFull` even though no caller is waiting —
the waiter slot is leaked, contradicting the claimed cancellation safety. -/
theorem acquire_cancel_leaks_waiter :
    (acquireStart (SemaphoreWithMaxWaiters.new 1 1)).1
        = AcquireState.done AcquireResult.ok
    ∧ (acquireStart (acquireStart (SemaphoreWithMaxWaiters.new 1 1)).2).1
        = AcquireState.waiting
    ∧ ((acquireStart (acquireStart (SemaphoreWithMaxWaiters.new 1 1)).2).2).numWaiters = 1
    ∧ (acquireCancel
        (acquireStart (acquireStart (SemaphoreWithMaxWaiters.new 1 1)).2).2).numWaiters = 1
    ∧ (acquireStart (acquireCancel
        (acquireStart (acquireStart (SemaphoreWithMaxWaiters.new 1 1)).2).2)).1
        = AcquireState.done AcquireResult.gateFull := by
  decide

/- ### Claims about LoadShed -/

/-- C1: for a `LoadShed` over a pool of capacity N, at most N permits are
outstanding at any instant; while all N are outstanding, `poll_ready` on a
handle holding no permit returns the overload error with nothing changed, and
once one in-flight operation completes and releases its permit the same
admission check succeeds again (it acquires the freed permit and delegates to
the inner service). -/
theorem loadShed_admission_ceiling {ε σ : Type} (mkErr : ε)
    (f : σ → Poll (Except ε Unit) × σ) (h : LoadShed σ)
    (s : Sys) (hwf : Wf s) (hperm : h.permitOpt = false) :
    outstanding s ≤ s.capacity
    ∧ (outstanding s = s.capacity →
        pollReady mkErr f h s.pool = (Poll.ready (Except.error mkErr), h, s.pool))
    ∧ (outstanding s = s.capacity → 0 < s.inFlight →
        pollReady mkErr f h (completeStep s).pool
          = ((f h.inner).1, { inner := (f h.inner).2, permitOpt := true },
              ⟨s.pool.available⟩)) := by
  unfold Wf at hwf
  refine ⟨by omega, ?_, ?_⟩
  · intro hfull
    have hz : s.pool.available = 0 := by omega
    unfold pollReady
    rw [hperm]
    simp [tryAcquireOwned, hz]
  · intro hfull hin
    have hz : s.pool.available = 0 := by omega
    unfold completeStep
    rw [if_pos hin]
    unfold pollReady releasePermit
    rw [hperm]
    simp [tryAcquireOwned]

theorem loadShed_admission_ceiling_witness :
    pollReady 7 (fun u : Unit => (Poll.ready (Except.ok ()), u)) ⟨(), false⟩
        (Pool.mk 0)
      = (Poll.ready (Except.error 7), ⟨(), false⟩, Pool.mk 0)
    ∧ pollReady 7 (fun u : Unit => (Poll.ready (Except.ok ()), u)) ⟨(), false⟩
        (completeStep ⟨1, ⟨0⟩, [], 1⟩).pool
      = (Poll.ready (Except.ok ()), ⟨(), true⟩, Pool.mk 0) :=
  ⟨(loadShed_admission_ceiling 7 (fun u : Unit => (Poll.ready (Except.ok ()), u))
      ⟨(), false⟩ ⟨1, ⟨0⟩, [], 1⟩ rfl rfl).2.1 rfl,
    (loadShed_admission_ceiling 7 (fun u : Unit => (Poll.ready (Except.ok ()), u))
      ⟨(), false⟩ ⟨1, ⟨0⟩, [], 1⟩ rfl rfl).2.2 rfl (by decide)⟩

/-- C4: `LoadShed::call` panics (the `expect` on `permit_opt.take()`) exactly
when the handle holds no unconsumed permit, and never panics under the
protocol's precondition: whenever the most recent `poll_ready` on the handle
returned `Poll::Ready(Ok(()))`, the resulting handle holds a permit and
`call` on it succeeds. -/
theorem call_requires_admission {ε σ ρ φ : Type}
    (mkErr : ε) (f : σ → Poll (Except ε Unit) × σ)
    (c : σ → ρ → φ × σ) (s : LoadShed σ) (p : Pool) (req : ρ) :
    (call c s req = none ↔ s.permitOpt = false)
    ∧ (∀ (s₁ : LoadShed σ) (p₁ : Pool),
        pollReady mkErr f s p = (Poll.ready (Except.ok ()), s₁, p₁) →
        (call c s₁ req).isSome = true) := by
  constructor
  · unfold call
    cases hs : s.permitOpt <;> simp [hs]
  · intro s₁ p₁ h
    have hr : s₁.permitOpt = true := by
      unfold pollReady at h
      split at h
      · have h2 := congrArg (fun t => t.2.1.permitOpt) h
        simpa using h2.symm
      · split at h
        · have h2 := congrArg (fun t => t.2.1.permitOpt) h
          simpa using h2.symm
        · have h1 := congrArg (fun t => t.1) h
          simp at h1
    unfold call
    simp [hr]

theorem call_requires_admission_witness :
    (call (fun (u : Unit) (_ : Unit) => ((), u)) ⟨(), true⟩ ()).isSome = true :=
  (call_requires_admission () (fun u : Unit => (Poll.ready (Except.ok ()), u))
      (fun (u : Unit) (_ : Unit) => ((), u)) ⟨(), false⟩ ⟨1⟩ ()).2
    ⟨(), true⟩ ⟨0⟩ rfl

/-- C6: polling a `LoadShedFuture` returns exactly the wrapped future's
output — successes and errors pass through unchanged — and dropping the
future (on completion or abandonment) releases its permit, restoring the
pool's available count to its value before the admission that created it. -/
theorem loadShedFuture_outcome_and_release {ε τ φ : Type}
    (innerPoll : φ → Poll (Except ε τ) × φ) (f : LoadShedFuture φ)
    (p p₁ : Pool) (hacq : tryAcquireOwned p = some p₁) :
    (pollLoadShedFuture innerPoll f).1 = (innerPoll f.inner).1
    ∧ dropLoadShedFuture p₁ = p := by
  refine ⟨rfl, ?_⟩
  cases p with
  | mk a =>
    unfold tryAcquireOwned at hacq
    by_cases ha : 0 < a
    · simp [ha] at hacq
      rw [← hacq]
      unfold dropLoadShedFuture releasePermit
      simp
      omega
    · simp [ha] at hacq

theorem loadShedFuture_outcome_and_release_witness :
    (pollLoadShedFuture
        (fun u : Unit => ((Poll.ready (Except.error 3) : Poll (Except Nat Unit)), u))
        (⟨(), ()⟩ : LoadShedFuture Unit)).1
      = ((fun u : Unit => ((Poll.ready (Except.error 3) : Poll (Except Nat Unit)), u)) ()).1
    ∧ dropLoadShedFuture ⟨1⟩ = ⟨2⟩ :=
  loadShedFuture_outcome_and_release
    (fun u : Unit => ((Poll.ready (Except.error 3) : Poll (Except Nat Unit)), u))
    ⟨(), ()⟩ ⟨2⟩ ⟨1⟩ rfl

/-- C7: cloning a `LoadShed` clones the inner service, always starts with an
empty local permit slot (even when the original holds an unconsumed permit),
and keeps using the same shared pool: adding a clone changes neither the pool
nor the capacity and preserves the joint accounting invariant, so the
in-flight ceiling applies across all clones together. -/
theorem loadShed_clone_shares_pool {σ : Type} (cloneInner : σ → σ)
    (s : LoadShed σ) (sys : Sys) (hwf : Wf sys) :
    (cloneLoadShed cloneInner s).permitOpt = false
    ∧ (cloneLoadShed cloneInner s).inner = cloneInner s.inner
    ∧ (cloneStep sys).pool = sys.pool
    ∧ (cloneStep sys).capacity = sys.capacity
    ∧ Wf (cloneStep sys) := by
  exact ⟨rfl, rfl, rfl, rfl, wf_cloneStep sys hwf⟩

theorem loadShed_clone_shares_pool_witness :
    (cloneLoadShed (fun u : Unit => u) ⟨(), true⟩).permitOpt = false
    ∧ (cloneLoadShed (fun u : Unit => u) ⟨(), true⟩).inner = ()
    ∧ (cloneStep ⟨2, ⟨1⟩, [true], 0⟩).pool = Pool.mk 1
    ∧ (cloneStep ⟨2, ⟨1⟩, [true], 0⟩).capacity = 2
    ∧ Wf (cloneStep ⟨2, ⟨1⟩, [true], 0⟩) :=
  loadShed_clone_shares_pool (fun u : Unit => u) ⟨(), true⟩ ⟨2, ⟨1⟩, [true], 0⟩ rfl

/-- C8: when the handle holds no permit and the shared pool is exhausted,
`poll_ready` returns `Poll::Ready` with the error built by
`make_load_shed_error` — it does not return `Poll::Pending` — and it leaves
the handle and the pool unchanged; the equation holds for every inner
`poll_ready` function, so the wrapped service is neither invoked nor
mutated. -/
theorem pollReady_exhausted_frame {ε σ : Type} (mkErr : ε)
    (s : LoadShed σ) (p : Pool) (hperm : s.permitOpt = false)
    (hpool : p.available = 0) :
    ∀ f : σ → Poll (Except ε Unit) × σ,
      pollReady mkErr f s p = (Poll.ready (Except.error mkErr), s, p) := by
  intro f
  unfold pollReady
  rw [hperm]
  simp [tryAcquireOwned, hpool]

theorem pollReady_exhausted_frame_witness :
    pollReady 42 (fun u : Unit => (Poll.pending, u)) ⟨(), false⟩ ⟨0⟩
      = (Poll.ready (Except.error 42), ⟨(), false⟩, ⟨0⟩) :=
  pollReady_exhausted_frame 42 ⟨(), false⟩ ⟨0⟩ rfl rfl
    (fun u : Unit => (Poll.pending, u))

/-- C10: a handle that already holds a permit keeps it across `poll_ready`
(no second acquisition: the pool is untouched and `permit_opt` stays set, so
a handle holds at most one unconsumed permit), and a permitless handle that
acquires a permit retains it even when the inner service is not ready
(pending or error), with the pool's capacity staying consumed. -/
theorem pollReady_retains_permit {ε σ : Type} (mkErr : ε)
    (f : σ → Poll (Except ε Unit) × σ) (s : LoadShed σ) (p : Pool) :
    (s.permitOpt = true →
      pollReady mkErr f s p
        = ((f s.inner).1, { inner := (f s.inner).2, permitOpt := true }, p))
    ∧ (s.permitOpt = false → 0 < p.available →
        ((f s.inner).1 = Poll.pending
          ∨ ∃ e, (f s.inner).1 = Poll.ready (Except.error e)) →
        pollReady mkErr f s p
          = ((f s.inner).1, { inner := (f s.inner).2, permitOpt := true },
              ⟨p.available - 1⟩)) := by
  constructor
  · intro hs
    unfold pollReady
    rw [hs]
    simp
  · intro hs hp _
    unfold pollReady
    rw [hs]
    simp [tryAcquireOwned, hp]

theorem pollReady_retains_permit_witness :
    pollReady 5 (fun u : Unit => (Poll.pending, u)) ⟨(), true⟩ ⟨1⟩
      = (Poll.pending, ⟨(), true⟩, ⟨1⟩)
    ∧ pollReady 5 (fun u : Unit => (Poll.pending, u)) ⟨(), false⟩ ⟨1⟩
      = (Poll.pending, ⟨(), true⟩, ⟨0⟩) :=
  ⟨(pollReady_retains_permit 5 (fun u : Unit => (Poll.pending, u))
      ⟨(), true⟩ ⟨1⟩).1 rfl,
    (pollReady_retains_permit 5 (fun u : Unit => (Poll.pending, u))
      ⟨(), false⟩ ⟨1⟩).2 rfl (by decide) (Or.inl rfl)⟩
